import Mathlib

/-!
# Verification of `tracing-subscriber-reload-arcswap` (`src/lib.rs`)

Shallow embedding of the crate's core: the `ArcSwapLayer` / `ArcSwapHandle`
pair built on an atomically swappable cell (`arc_swap::ArcSwap`) plus a
write-serializing mutex (`modify_lock`), and the adapter's delegation of the
`Layer` ("stage") and `Filter` capability sets to the currently loaded value.

Modelling decisions:
* `CoreState L` is the joint state of one cell/serializer pair:
  - `alive` models whether any strong owner (the `ArcSwapLayer` or one of its
    clones) still exists; `Weak::upgrade` succeeds iff `alive = true`.
  - `poisoned` is the `std::sync::Mutex` poison flag of `modify_lock`;
    `lock()` returns `Err` iff it is set.
  - `current` is the value held by the `ArcSwap` cell.
  - `rebuilds` counts invocations of `callsite::rebuild_interest_cache()`.
  - `logSyncs` counts invocations of the `tracing-log` max-level
    synchronization; `tracingLog` records whether that cargo feature is
    compiled in (it never changes at runtime).
* Rust closures `FnOnce(&mut L)` are modelled as functions `L → L` applied to
  the private duplicate, and `L::clone` as an explicit function `clone : L → L`.
* Fallible operations return `Except ErrorKind _` paired with the post state;
  `Error { kind }` from the source is flattened to its kind.
-/

namespace TracingArcSwap

/-- The two error kinds of `ErrorKind` in the source: `SubscriberGone`
(the weak reference failed to upgrade) and `Poisoned` (the `modify_lock`
mutex is poisoned). -/
inductive ErrorKind : Type where
  | subscriberGone : ErrorKind
  | poisoned : ErrorKind
deriving DecidableEq

/-- Joint state of one `ArcSwap` cell and its `modify_lock` serializer,
together with the process-wide side-effect counters the write path touches. -/
structure CoreState (L : Type) where
  alive : Bool
  poisoned : Bool
  current : L
  rebuilds : Nat
  logSyncs : Nat
  tracingLog : Bool
deriving DecidableEq

/-- `ArcSwapLayer::new(inner)`: a fresh live cell holding `inner`, with an
unpoisoned serializer and no side effects performed yet.  `tl` records
whether the `tracing-log` feature is compiled in. -/
def mkState {L : Type} (tl : Bool) (v : L) : CoreState L :=
  { alive := true, poisoned := false, current := v,
    rebuilds := 0, logSyncs := 0, tracingLog := tl }

/-- `ArcSwapHandle::reload(new_value)`.  Upgrades the weak references (fails
with `SubscriberGone` when the owner is gone), locks the serializer (fails
with `Poisoned` when the mutex is poisoned), stores `conv v` — the
`impl Into<L>` conversion — and then runs the post-store side effects:
`rebuild_interest_cache` and, when the `tracing-log` feature is on, the log
max-level synchronization. -/
def reload {V L : Type} (conv : V → L) (v : V) (s : CoreState L) :
    Except ErrorKind Unit × CoreState L :=
  if s.alive = true then
    if s.poisoned = true then (Except.error ErrorKind.poisoned, s)
    else
      (Except.ok (),
       { s with current := conv v,
                rebuilds := s.rebuilds + 1,
                logSyncs := s.logSyncs + (if s.tracingLog = true then 1 else 0) })
  else (Except.error ErrorKind.subscriberGone, s)

/-- `ArcSwapHandle::modify(f)`.  Upgrades the weak references, locks the
serializer, loads the current value, clones it, applies `f` to the clone,
stores the clone, and runs the same post-store side effects as `reload`. -/
def modify {L : Type} (clone : L → L) (f : L → L) (s : CoreState L) :
    Except ErrorKind Unit × CoreState L :=
  if s.alive = true then
    if s.poisoned = true then (Except.error ErrorKind.poisoned, s)
    else
      (Except.ok (),
       { s with current := f (clone s.current),
                rebuilds := s.rebuilds + 1,
                logSyncs := s.logSyncs + (if s.tracingLog = true then 1 else 0) })
  else (Except.error ErrorKind.subscriberGone, s)

/-- `ArcSwapHandle::with_current(f)`.  Upgrades only the cell's weak
reference (never touches the serializer), loads the current value and applies
`f` by reference.  Read-only: the state is unchanged. -/
def withCurrent {L T : Type} (f : L → T) (s : CoreState L) : Except ErrorKind T :=
  if s.alive = true then Except.ok (f s.current)
  else Except.error ErrorKind.subscriberGone

/-- `ArcSwapHandle::clone_current()`: `self.with_current(L::clone).ok()`. -/
def cloneCurrent {L : Type} (clone : L → L) (s : CoreState L) : Option L :=
  (withCurrent clone s).toOption

/-- `Layer::on_layer` for `ArcSwapLayer`.  The adapter holds strong
references, so there is no owner-gone path.  It locks the serializer: on
poison it returns silently if the thread is already panicking (`pk = true`)
and otherwise panics (`Except.error ()` models `panic!("lock poisoned")`).
Otherwise it clones the current value, lets the clone run its own `on_layer`
(modelled by `cb`), and stores the clone.  Note: no interest-cache rebuild
is performed on this path. -/
def onLayer {L : Type} (pk : Bool) (clone : L → L) (cb : L → L) (s : CoreState L) :
    Except Unit (CoreState L) :=
  if s.poisoned = true then
    if pk = true then Except.ok s
    else Except.error ()
  else Except.ok { s with current := cb (clone s.current) }

/-- Whether a write operation's result is `Ok`. -/
def writeSucceeded (r : Except ErrorKind Unit) : Bool :=
  match r with
  | Except.ok _ => true
  | Except.error _ => false

/-- One handle operation in a sequential trace.  `doAbortModify` is a
`modify` whose closure panics inside the critical section: the guard is
dropped during unwinding and the mutex becomes poisoned (the clone being
mutated is discarded, so the cell keeps its old value). -/
inductive HOp (L : Type) : Type where
  | doReload : L → HOp L
  | doModify : (L → L) → HOp L
  | doAbortModify : HOp L
  | doWithCurrent : HOp L

/-- Observable outcome of one trace operation: `Ok`, an error value, the
value a read observed, or an unwinding panic. -/
inductive HRes (L : Type) : Type where
  | ok : HRes L
  | err : ErrorKind → HRes L
  | read : L → HRes L
  | panicked : HRes L
deriving DecidableEq

/-- Execute one trace operation, reusing the operation definitions above.
`doAbortModify` performs the same upgrade and lock checks as `modify`; only
when they pass does the closure run and abort, poisoning the serializer. -/
def hstep {L : Type} (clone : L → L) : HOp L → CoreState L → HRes L × CoreState L
  | HOp.doReload v, s =>
      (match (reload (fun x => x) v s).1 with
       | Except.ok _ => HRes.ok
       | Except.error e => HRes.err e,
       (reload (fun x => x) v s).2)
  | HOp.doModify f, s =>
      (match (modify clone f s).1 with
       | Except.ok _ => HRes.ok
       | Except.error e => HRes.err e,
       (modify clone f s).2)
  | HOp.doAbortModify, s =>
      if s.alive = true then
        if s.poisoned = true then (HRes.err ErrorKind.poisoned, s)
        else (HRes.panicked, { s with poisoned := true })
      else (HRes.err ErrorKind.subscriberGone, s)
  | HOp.doWithCurrent, s =>
      (match withCurrent (fun x => x) s with
       | Except.ok v => HRes.read v
       | Except.error e => HRes.err e, s)

/-- Run a sequential trace of handle operations, collecting each outcome. -/
def runTrace {L : Type} (clone : L → L) :
    List (HOp L) → CoreState L → List (HRes L) × CoreState L
  | [], s => ([], s)
  | op :: rest, s =>
      ((hstep clone op s).1 :: (runTrace clone rest (hstep clone op s).2).1,
       (runTrace clone rest (hstep clone op s).2).2)

/-- The outcome each operation has when executed against a live, poisoned
state: every write fails with the poisoned error and every read observes the
current (last successfully published) value. -/
def poisonedRes {L : Type} (s : CoreState L) : HOp L → HRes L
  | HOp.doReload _ => HRes.err ErrorKind.poisoned
  | HOp.doModify _ => HRes.err ErrorKind.poisoned
  | HOp.doAbortModify => HRes.err ErrorKind.poisoned
  | HOp.doWithCurrent => HRes.read s.current

/-- In a live, poisoned state every operation leaves the state unchanged and
produces the outcome described by `poisonedRes`. -/
theorem runTrace_poisoned {L : Type} (clone : L → L) (ops : List (HOp L))
    (s : CoreState L) (ha : s.alive = true) (hp : s.poisoned = true) :
    runTrace clone ops s = (ops.map (poisonedRes s), s) := by
  induction ops with
  | nil => rfl
  | cons op rest ih =>
      have hstep_eq : hstep clone op s = (poisonedRes s op, s) := by
        cases op <;> simp [hstep, reload, modify, withCurrent, poisonedRes, ha, hp]
      simp [runTrace, hstep_eq, ih]

/-- Claim C1: if `reload(v)` returns `Ok`, every subsequent load — via
`with_current`, `clone_current`, or the delegation load — yields the value
`v` converted into the wrapped type (`conv v`), until a later write. -/
theorem reload_publishes_new_value {V L T : Type} (conv : V → L) (v : V)
    (clone : L → L) (g : L → T) (s : CoreState L)
    (h : (reload conv v s).1 = Except.ok ()) :
    ((reload conv v s).2).current = conv v ∧
    withCurrent g ((reload conv v s).2) = Except.ok (g (conv v)) ∧
    cloneCurrent clone ((reload conv v s).2) = some (clone (conv v)) := by
  by_cases ha : s.alive = true
  · by_cases hp : s.poisoned = true
    · simp [reload, ha, hp] at h
    · simp [reload, withCurrent, cloneCurrent, Except.toOption, ha, hp]
  · simp [reload, ha] at h

/-- Concrete check of `reload_publishes_new_value` on `L = Nat`. -/
theorem reload_publishes_new_value_check :
    (reload (fun n : Nat => n + 1) 4 (mkState false 0)).1 = Except.ok () ∧
    (((reload (fun n : Nat => n + 1) 4 (mkState false 0)).2).current = 5 ∧
     withCurrent (fun n : Nat => n * 2)
       ((reload (fun n : Nat => n + 1) 4 (mkState false 0)).2) = Except.ok 10 ∧
     cloneCurrent (fun n : Nat => n)
       ((reload (fun n : Nat => n + 1) 4 (mkState false 0)).2) = some 5) :=
  ⟨rfl, reload_publishes_new_value (fun n : Nat => n + 1) 4 (fun n => n)
    (fun n => n * 2) (mkState false 0) rfl⟩

/-- Claim C2: if `modify(f)` returns `Ok`, a subsequent load yields exactly
`f` applied to a clone of the value that was current at the start of the
call — a pure read-duplicate-mutate-publish, never a merge. -/
theorem modify_publishes_mutated_clone {L T : Type} (clone f : L → L)
    (g : L → T) (s : CoreState L)
    (h : (modify clone f s).1 = Except.ok ()) :
    ((modify clone f s).2).current = f (clone s.current) ∧
    withCurrent g ((modify clone f s).2) = Except.ok (g (f (clone s.current))) := by
  by_cases ha : s.alive = true
  · by_cases hp : s.poisoned = true
    · simp [modify, ha, hp] at h
    · simp [modify, withCurrent, ha, hp]
  · simp [modify, ha] at h

/-- Concrete check of `modify_publishes_mutated_clone` on `L = Nat`. -/
theorem modify_publishes_mutated_clone_check :
    (modify (fun n : Nat => n) (fun n => n + 10) (mkState true 7)).1 = Except.ok () ∧
    (((modify (fun n : Nat => n) (fun n => n + 10) (mkState true 7)).2).current = 17 ∧
     withCurrent (fun n : Nat => n + 1)
       ((modify (fun n : Nat => n) (fun n => n + 10) (mkState true 7)).2)
       = Except.ok 18) :=
  ⟨rfl, modify_publishes_mutated_clone (fun n : Nat => n) (fun n => n + 10)
    (fun n => n + 1) (mkState true 7) rfl⟩

/-- Claim C3: once every strong owner (the adapter and all its clones) is
gone, `reload`, `modify` and `with_current` on any handle return the
`SubscriberGone` error, `clone_current` returns `none`, and the state is
left untouched (no crash, no corruption). -/
theorem owner_gone_all_operations_fail {V L T : Type} (conv : V → L) (v : V)
    (clone f : L → L) (g : L → T) (s : CoreState L)
    (h : s.alive = false) :
    reload conv v s = (Except.error ErrorKind.subscriberGone, s) ∧
    modify clone f s = (Except.error ErrorKind.subscriberGone, s) ∧
    withCurrent g s = Except.error ErrorKind.subscriberGone ∧
    cloneCurrent clone s = none := by
  have ha : ¬ s.alive = true := by simp [h]
  simp [reload, modify, withCurrent, cloneCurrent, Except.toOption, ha]

/-- Concrete check of `owner_gone_all_operations_fail` on `L = Nat` with the
owner dropped. -/
theorem owner_gone_all_operations_fail_check :
    ({ mkState false 3 with alive := false } : CoreState Nat).alive = false ∧
    (reload (fun n : Nat => n) 9 { mkState false 3 with alive := false }
       = (Except.error ErrorKind.subscriberGone,
          { mkState false 3 with alive := false }) ∧
     modify (fun n : Nat => n) (fun n => n + 1) { mkState false 3 with alive := false }
       = (Except.error ErrorKind.subscriberGone,
          { mkState false 3 with alive := false }) ∧
     withCurrent (fun n : Nat => n) { mkState false 3 with alive := false }
       = Except.error ErrorKind.subscriberGone ∧
     cloneCurrent (fun n : Nat => n) { mkState false 3 with alive := false } = none) :=
  ⟨rfl, owner_gone_all_operations_fail (fun n : Nat => n) 9 (fun n => n)
    (fun n => n + 1) (fun n => n) { mkState false 3 with alive := false } rfl⟩

/-- Claim C4, counterexample: `on_layer` is a successful write that publishes
a new value into the cell, yet it performs no interest-cache invalidation —
`rebuilds` stays at its old count.  Refutes the claim that every publishing
write invalidates the cache. -/
theorem on_layer_skips_cache_rebuild :
    onLayer false (fun n : Nat => n) (fun n => n + 1) (mkState false 0)
      = Except.ok { mkState false (0 : Nat) with current := 1 } ∧
    ({ mkState false (0 : Nat) with current := 1 } : CoreState Nat).current
      ≠ (mkState false (0 : Nat)).current ∧
    ({ mkState false (0 : Nat) with current := 1 } : CoreState Nat).rebuilds
      = (mkState false (0 : Nat)).rebuilds :=
  ⟨rfl, by decide, rfl⟩

/-- Claim C4, amended: successful `reload` and `modify` each invalidate the
interest cache exactly once, but the mutating `on_layer` delegation publishes
its new value without rebuilding the cache. -/
theorem cache_invalidation_on_reload_and_modify {V L : Type} (conv : V → L)
    (v : V) (clone f cb : L → L) (pk : Bool) (s : CoreState L)
    (ha : s.alive = true) (hp : s.poisoned = false) :
    (reload conv v s).1 = Except.ok () ∧
    ((reload conv v s).2).rebuilds = s.rebuilds + 1 ∧
    (modify clone f s).1 = Except.ok () ∧
    ((modify clone f s).2).rebuilds = s.rebuilds + 1 ∧
    onLayer pk clone cb s = Except.ok { s with current := cb (clone s.current) } ∧
    ({ s with current := cb (clone s.current) } : CoreState L).rebuilds
      = s.rebuilds := by
  have hp' : ¬ s.poisoned = true := by simp [hp]
  simp [reload, modify, onLayer, ha, hp']

/-- Concrete check of `cache_invalidation_on_reload_and_modify` on
`L = Nat`. -/
theorem cache_invalidation_on_reload_and_modify_check :
    ((mkState true (2 : Nat)).alive = true ∧ (mkState true (2 : Nat)).poisoned = false) ∧
    ((reload (fun n : Nat => n) 5 (mkState true 2)).1 = Except.ok () ∧
     ((reload (fun n : Nat => n) 5 (mkState true 2)).2).rebuilds
       = (mkState true (2 : Nat)).rebuilds + 1 ∧
     (modify (fun n : Nat => n) (fun n => n * 3) (mkState true 2)).1 = Except.ok () ∧
     ((modify (fun n : Nat => n) (fun n => n * 3) (mkState true 2)).2).rebuilds
       = (mkState true (2 : Nat)).rebuilds + 1 ∧
     onLayer false (fun n : Nat => n) (fun n => n + 4) (mkState true 2)
       = Except.ok { mkState true (2 : Nat) with current := 6 } ∧
     ({ mkState true (2 : Nat) with current := 6 } : CoreState Nat).rebuilds
       = (mkState true (2 : Nat)).rebuilds) :=
  ⟨⟨rfl, rfl⟩, cache_invalidation_on_reload_and_modify (fun n : Nat => n) 5
    (fun n => n) (fun n => n * 3) (fun n => n + 4) false (mkState true 2) rfl rfl⟩

/-- Claim C5, counterexample: with the serializer poisoned and the thread not
already unwinding, the adapter's `on_layer` delegation executes
`panic!("lock poisoned")` (modelled by `Except.error ()`) instead of
reporting an error value — refuting "no crash-on-error behavior anywhere in
the core". -/
theorem on_layer_panics_when_poisoned :
    onLayer false (fun n : Nat => n) (fun n => n)
      { mkState false (0 : Nat) with poisoned := true } = Except.error () := rfl

/-- Claim C5, amended: the handle operations report both error kinds as
explicit failure values and leave the state untouched; the `on_layer`
delegation, however, treats a poisoned serializer as fatal — it is a silent
no-op when the thread is already panicking and panics otherwise. -/
theorem errors_are_values_except_on_layer {V L T : Type} (conv : V → L)
    (v : V) (clone f cb : L → L) (g : L → T) (s : CoreState L)
    (hp : s.poisoned = true) :
    onLayer true clone cb s = Except.ok s ∧
    onLayer false clone cb s = Except.error () ∧
    (reload conv v s).2 = s ∧
    (modify clone f s).2 = s ∧
    ((reload conv v s).1 = Except.error ErrorKind.subscriberGone ∨
     (reload conv v s).1 = Except.error ErrorKind.poisoned) ∧
    ((modify clone f s).1 = Except.error ErrorKind.subscriberGone ∨
     (modify clone f s).1 = Except.error ErrorKind.poisoned) ∧
    withCurrent g s = if s.alive = true then Except.ok (g s.current)
      else Except.error ErrorKind.subscriberGone := by
  by_cases ha : s.alive = true <;>
    simp [reload, modify, onLayer, withCurrent, ha, hp]

/-- Concrete check of `errors_are_values_except_on_layer` on `L = Nat` with a
live, poisoned state. -/
theorem errors_are_values_except_on_layer_check :
    ({ mkState false (4 : Nat) with poisoned := true } : CoreState Nat).poisoned = true ∧
    (onLayer true (fun n : Nat => n) (fun n => n + 1)
       { mkState false (4 : Nat) with poisoned := true }
       = Except.ok { mkState false (4 : Nat) with poisoned := true } ∧
     onLayer false (fun n : Nat => n) (fun n => n + 1)
       { mkState false (4 : Nat) with poisoned := true } = Except.error () ∧
     (reload (fun n : Nat => n) 8 { mkState false (4 : Nat) with poisoned := true }).2
       = { mkState false (4 : Nat) with poisoned := true } ∧
     (modify (fun n : Nat => n) (fun n => n + 1)
        { mkState false (4 : Nat) with poisoned := true }).2
       = { mkState false (4 : Nat) with poisoned := true } ∧
     ((reload (fun n : Nat => n) 8 { mkState false (4 : Nat) with poisoned := true }).1
        = Except.error ErrorKind.subscriberGone ∨
      (reload (fun n : Nat => n) 8 { mkState false (4 : Nat) with poisoned := true }).1
        = Except.error ErrorKind.poisoned) ∧
     ((modify (fun n : Nat => n) (fun n => n + 1)
         { mkState false (4 : Nat) with poisoned := true }).1
        = Except.error ErrorKind.subscriberGone ∨
      (modify (fun n : Nat => n) (fun n => n + 1)
         { mkState false (4 : Nat) with poisoned := true }).1
        = Except.error ErrorKind.poisoned) ∧
     withCurrent (fun n : Nat => n * 2)
       { mkState false (4 : Nat) with poisoned := true }
       = if ({ mkState false (4 : Nat) with poisoned := true } : CoreState Nat).alive = true
         then Except.ok 8 else Except.error ErrorKind.subscriberGone) :=
  ⟨rfl, errors_are_values_except_on_layer (fun n : Nat => n) 8 (fun n => n)
    (fun n => n + 1) (fun n => n + 1) (fun n => n * 2)
    { mkState false (4 : Nat) with poisoned := true } rfl⟩

/-- Claim C7: side effects run if and only if the write succeeds — the
cache-rebuild and log-sync counters advance exactly on success, and a failed
`reload` or `modify` returns the state completely unchanged (value and side
effects alike). -/
theorem failed_writes_change_nothing {V L : Type} (conv : V → L) (v : V)
    (clone f : L → L) (s : CoreState L) (er em : ErrorKind)
    (hr : (reload conv v s).1 = Except.error er)
    (_hm : (modify clone f s).1 = Except.error em) :
    (reload conv v s).2 = s ∧
    (modify clone f s).2 = s ∧
    ((reload conv v s).2).rebuilds
      = s.rebuilds + (if writeSucceeded (reload conv v s).1 then 1 else 0) ∧
    ((reload conv v s).2).logSyncs
      = s.logSyncs
        + (if writeSucceeded (reload conv v s).1 && s.tracingLog then 1 else 0) ∧
    ((modify clone f s).2).rebuilds
      = s.rebuilds + (if writeSucceeded (modify clone f s).1 then 1 else 0) ∧
    ((modify clone f s).2).logSyncs
      = s.logSyncs
        + (if writeSucceeded (modify clone f s).1 && s.tracingLog then 1 else 0) := by
  by_cases ha : s.alive = true
  · by_cases hp : s.poisoned = true
    · simp [reload, modify, writeSucceeded, ha, hp]
    · simp [reload, ha, hp] at hr
  · simp [reload, modify, writeSucceeded, ha]

/-- Concrete check of `failed_writes_change_nothing` on `L = Nat` with a
poisoned state. -/
theorem failed_writes_change_nothing_check :
    ((reload (fun n : Nat => n) 1 { mkState true (6 : Nat) with poisoned := true }).1
       = Except.error ErrorKind.poisoned ∧
     (modify (fun n : Nat => n) (fun n => n + 1)
        { mkState true (6 : Nat) with poisoned := true }).1
       = Except.error ErrorKind.poisoned) ∧
    ((reload (fun n : Nat => n) 1 { mkState true (6 : Nat) with poisoned := true }).2
       = { mkState true (6 : Nat) with poisoned := true } ∧
     (modify (fun n : Nat => n) (fun n => n + 1)
        { mkState true (6 : Nat) with poisoned := true }).2
       = { mkState true (6 : Nat) with poisoned := true } ∧
     ((reload (fun n : Nat => n) 1 { mkState true (6 : Nat) with poisoned := true }).2).rebuilds
       = ({ mkState true (6 : Nat) with poisoned := true } : CoreState Nat).rebuilds
         + (if writeSucceeded
              (reload (fun n : Nat => n) 1
                { mkState true (6 : Nat) with poisoned := true }).1 then 1 else 0) ∧
     ((reload (fun n : Nat => n) 1 { mkState true (6 : Nat) with poisoned := true }).2).logSyncs
       = ({ mkState true (6 : Nat) with poisoned := true } : CoreState Nat).logSyncs
         + (if writeSucceeded
              (reload (fun n : Nat => n) 1
                { mkState true (6 : Nat) with poisoned := true }).1
              && ({ mkState true (6 : Nat) with poisoned := true } : CoreState Nat).tracingLog
            then 1 else 0) ∧
     ((modify (fun n : Nat => n) (fun n => n + 1)
         { mkState true (6 : Nat) with poisoned := true }).2).rebuilds
       = ({ mkState true (6 : Nat) with poisoned := true } : CoreState Nat).rebuilds
         + (if writeSucceeded
              (modify (fun n : Nat => n) (fun n => n + 1)
                { mkState true (6 : Nat) with poisoned := true }).1 then 1 else 0) ∧
     ((modify (fun n : Nat => n) (fun n => n + 1)
         { mkState true (6 : Nat) with poisoned := true }).2).logSyncs
       = ({ mkState true (6 : Nat) with poisoned := true } : CoreState Nat).logSyncs
         + (if writeSucceeded
              (modify (fun n : Nat => n) (fun n => n + 1)
                { mkState true (6 : Nat) with poisoned := true }).1
              && ({ mkState true (6 : Nat) with poisoned := true } : CoreState Nat).tracingLog
            then 1 else 0)) :=
  ⟨⟨rfl, rfl⟩, failed_writes_change_nothing (fun n : Nat => n) 1 (fun n => n)
    (fun n => n + 1) { mkState true (6 : Nat) with poisoned := true }
    ErrorKind.poisoned ErrorKind.poisoned rfl rfl⟩

/-- Claim C6: once a writer's closure aborts inside the critical section the
serializer is poisoned: the cell keeps the last successfully published value,
and from then on every `reload` and `modify` (and any further aborting
attempt) fails with the poisoned error while every read still succeeds and
observes that last published value — permanently, across any sequence of
operations on that serializer instance. -/
theorem poisoning_blocks_writes_not_reads {L : Type} (clone : L → L)
    (ops : List (HOp L)) (s : CoreState L)
    (ha : s.alive = true) (hp : s.poisoned = false) :
    ((hstep clone HOp.doAbortModify s).2).poisoned = true ∧
    ((hstep clone HOp.doAbortModify s).2).current = s.current ∧
    ((hstep clone HOp.doAbortModify s).2).alive = true ∧
    runTrace clone ops ((hstep clone HOp.doAbortModify s).2)
      = (ops.map (poisonedRes ((hstep clone HOp.doAbortModify s).2)),
         (hstep clone HOp.doAbortModify s).2) := by
  have hp' : ¬ s.poisoned = true := by simp [hp]
  have habort : (hstep clone HOp.doAbortModify s).2 = { s with poisoned := true } := by
    simp [hstep, ha, hp']
  refine ⟨by simp [habort], by simp [habort], by simp [habort, ha], ?_⟩
  exact runTrace_poisoned clone ops _ (by simp [habort, ha]) (by simp [habort])

/-- Concrete check of `poisoning_blocks_writes_not_reads` on `L = Nat` with a
trace containing both writes and reads after the abort. -/
theorem poisoning_blocks_writes_not_reads_check :
    ((mkState false (7 : Nat)).alive = true ∧ (mkState false (7 : Nat)).poisoned = false) ∧
    (((hstep (fun n : Nat => n) HOp.doAbortModify (mkState false 7)).2).poisoned = true ∧
     ((hstep (fun n : Nat => n) HOp.doAbortModify (mkState false 7)).2).current = 7 ∧
     ((hstep (fun n : Nat => n) HOp.doAbortModify (mkState false 7)).2).alive = true ∧
     runTrace (fun n : Nat => n)
       [HOp.doReload 3, HOp.doWithCurrent, HOp.doModify (fun n => n + 1),
        HOp.doAbortModify, HOp.doWithCurrent]
       ((hstep (fun n : Nat => n) HOp.doAbortModify (mkState false 7)).2)
       = ([HRes.err ErrorKind.poisoned, HRes.read 7, HRes.err ErrorKind.poisoned,
           HRes.err ErrorKind.poisoned, HRes.read 7],
          (hstep (fun n : Nat => n) HOp.doAbortModify (mkState false 7)).2)) :=
  ⟨⟨rfl, rfl⟩, poisoning_blocks_writes_not_reads (fun n : Nat => n)
    [HOp.doReload 3, HOp.doWithCurrent, HOp.doModify (fun n => n + 1),
     HOp.doAbortModify, HOp.doWithCurrent] (mkState false 7) rfl rfl⟩

/-! ## Delegation of the `Layer` ("stage") and `Filter` capability sets

The external framework types are opaque type parameters: `Md` metadata,
`Ctx` the layer context, `Attrs` span attributes, `SpanId` span ids, `Rc`
record values, `Ev` events, `Disp` dispatchers, `Intr` the `Interest`
result, `Lvl` level filters, and `E` the observable effect of the
unit-returning callbacks.  A trait implementation of `Layer` (resp.
`Filter`) for the wrapped type `L` is a record of its methods. -/

/-- The read-path methods of the `Layer` trait implemented by the wrapped
type `L`. -/
structure LayerC (L Md Ctx Attrs SpanId Rc Ev Disp Intr Lvl E : Type) where
  on_register_dispatch : L → Disp → E
  register_callsite : L → Md → Intr
  enabled : L → Md → Ctx → Bool
  on_new_span : L → Attrs → SpanId → Ctx → E
  on_record : L → SpanId → Rc → Ctx → E
  on_follows_from : L → SpanId → SpanId → Ctx → E
  event_enabled : L → Ev → Ctx → Bool
  on_event : L → Ev → Ctx → E
  on_enter : L → SpanId → Ctx → E
  on_exit : L → SpanId → Ctx → E
  on_close : L → SpanId → Ctx → E
  on_id_change : L → SpanId → SpanId → Ctx → E
  max_level_hint : L → Option Lvl

/-- The methods of the per-layer `Filter` trait implemented by the wrapped
type `L`. -/
structure FilterC (L Md Ctx Attrs SpanId Rc Lvl Intr E : Type) where
  callsite_enabled : L → Md → Intr
  enabled : L → Md → Ctx → Bool
  on_new_span : L → Attrs → SpanId → Ctx → E
  on_record : L → SpanId → Rc → Ctx → E
  on_enter : L → SpanId → Ctx → E
  on_exit : L → SpanId → Ctx → E
  on_close : L → SpanId → Ctx → E
  max_level_hint : L → Option Lvl

section Delegation

variable {L Md Ctx Attrs SpanId Rc Ev Disp Intr Lvl E : Type}

/-- `Layer::on_register_dispatch` for `ArcSwapLayer`:
`self.inner.load().on_register_dispatch(subscriber)`. -/
def adapter_on_register_dispatch (c : LayerC L Md Ctx Attrs SpanId Rc Ev Disp Intr Lvl E)
    (s : CoreState L) (d : Disp) : E :=
  c.on_register_dispatch s.current d

/-- `Layer::register_callsite` for `ArcSwapLayer`:
`self.inner.load().register_callsite(metadata)`. -/
def adapter_register_callsite (c : LayerC L Md Ctx Attrs SpanId Rc Ev Disp Intr Lvl E)
    (s : CoreState L) (md : Md) : Intr :=
  c.register_callsite s.current md

/-- `Layer::enabled` for `ArcSwapLayer`:
`self.inner.load().enabled(metadata, ctx)`. -/
def adapter_enabled (c : LayerC L Md Ctx Attrs SpanId Rc Ev Disp Intr Lvl E)
    (s : CoreState L) (md : Md) (ctx : Ctx) : Bool :=
  c.enabled s.current md ctx

/-- `Layer::on_new_span` for `ArcSwapLayer`. -/
def adapter_on_new_span (c : LayerC L Md Ctx Attrs SpanId Rc Ev Disp Intr Lvl E)
    (s : CoreState L) (a : Attrs) (i : SpanId) (ctx : Ctx) : E :=
  c.on_new_span s.current a i ctx

/-- `Layer::on_record` for `ArcSwapLayer`. -/
def adapter_on_record (c : LayerC L Md Ctx Attrs SpanId Rc Ev Disp Intr Lvl E)
    (s : CoreState L) (i : SpanId) (r : Rc) (ctx : Ctx) : E :=
  c.on_record s.current i r ctx

/-- `Layer::on_follows_from` for `ArcSwapLayer`. -/
def adapter_on_follows_from (c : LayerC L Md Ctx Attrs SpanId Rc Ev Disp Intr Lvl E)
    (s : CoreState L) (i j : SpanId) (ctx : Ctx) : E :=
  c.on_follows_from s.current i j ctx

/-- `Layer::event_enabled` for `ArcSwapLayer`. -/
def adapter_event_enabled (c : LayerC L Md Ctx Attrs SpanId Rc Ev Disp Intr Lvl E)
    (s : CoreState L) (ev : Ev) (ctx : Ctx) : Bool :=
  c.event_enabled s.current ev ctx

/-- `Layer::on_event` for `ArcSwapLayer`. -/
def adapter_on_event (c : LayerC L Md Ctx Attrs SpanId Rc Ev Disp Intr Lvl E)
    (s : CoreState L) (ev : Ev) (ctx : Ctx) : E :=
  c.on_event s.current ev ctx

/-- `Layer::on_enter` for `ArcSwapLayer`. -/
def adapter_on_enter (c : LayerC L Md Ctx Attrs SpanId Rc Ev Disp Intr Lvl E)
    (s : CoreState L) (i : SpanId) (ctx : Ctx) : E :=
  c.on_enter s.current i ctx

/-- `Layer::on_exit` for `ArcSwapLayer`. -/
def adapter_on_exit (c : LayerC L Md Ctx Attrs SpanId Rc Ev Disp Intr Lvl E)
    (s : CoreState L) (i : SpanId) (ctx : Ctx) : E :=
  c.on_exit s.current i ctx

/-- `Layer::on_close` for `ArcSwapLayer`. -/
def adapter_on_close (c : LayerC L Md Ctx Attrs SpanId Rc Ev Disp Intr Lvl E)
    (s : CoreState L) (i : SpanId) (ctx : Ctx) : E :=
  c.on_close s.current i ctx

/-- `Layer::on_id_change` for `ArcSwapLayer`. -/
def adapter_on_id_change (c : LayerC L Md Ctx Attrs SpanId Rc Ev Disp Intr Lvl E)
    (s : CoreState L) (i j : SpanId) (ctx : Ctx) : E :=
  c.on_id_change s.current i j ctx

/-- `Layer::max_level_hint` for `ArcSwapLayer`:
`self.inner.load().max_level_hint()`. -/
def adapter_max_level_hint (c : LayerC L Md Ctx Attrs SpanId Rc Ev Disp Intr Lvl E)
    (s : CoreState L) : Option Lvl :=
  c.max_level_hint s.current

/-- `Filter::callsite_enabled` for `ArcSwapLayer`. -/
def fadapter_callsite_enabled (c : FilterC L Md Ctx Attrs SpanId Rc Lvl Intr E)
    (s : CoreState L) (md : Md) : Intr :=
  c.callsite_enabled s.current md

/-- `Filter::enabled` for `ArcSwapLayer`. -/
def fadapter_enabled (c : FilterC L Md Ctx Attrs SpanId Rc Lvl Intr E)
    (s : CoreState L) (md : Md) (ctx : Ctx) : Bool :=
  c.enabled s.current md ctx

/-- `Filter::on_new_span` for `ArcSwapLayer`. -/
def fadapter_on_new_span (c : FilterC L Md Ctx Attrs SpanId Rc Lvl Intr E)
    (s : CoreState L) (a : Attrs) (i : SpanId) (ctx : Ctx) : E :=
  c.on_new_span s.current a i ctx

/-- `Filter::on_record` for `ArcSwapLayer`. -/
def fadapter_on_record (c : FilterC L Md Ctx Attrs SpanId Rc Lvl Intr E)
    (s : CoreState L) (i : SpanId) (r : Rc) (ctx : Ctx) : E :=
  c.on_record s.current i r ctx

/-- `Filter::on_enter` for `ArcSwapLayer`. -/
def fadapter_on_enter (c : FilterC L Md Ctx Attrs SpanId Rc Lvl Intr E)
    (s : CoreState L) (i : SpanId) (ctx : Ctx) : E :=
  c.on_enter s.current i ctx

/-- `Filter::on_exit` for `ArcSwapLayer`. -/
def fadapter_on_exit (c : FilterC L Md Ctx Attrs SpanId Rc Lvl Intr E)
    (s : CoreState L) (i : SpanId) (ctx : Ctx) : E :=
  c.on_exit s.current i ctx

/-- `Filter::on_close` for `ArcSwapLayer`. -/
def fadapter_on_close (c : FilterC L Md Ctx Attrs SpanId Rc Lvl Intr E)
    (s : CoreState L) (i : SpanId) (ctx : Ctx) : E :=
  c.on_close s.current i ctx

/-- `Filter::max_level_hint` for `ArcSwapLayer`. -/
def fadapter_max_level_hint (c : FilterC L Md Ctx Attrs SpanId Rc Lvl Intr E)
    (s : CoreState L) : Option Lvl :=
  c.max_level_hint s.current

/-- Claim C8: every non-mutating stage or filter method of the adapter
returns exactly the result of calling the same method with the same
arguments on the value currently loaded from the cell, with no state
change. -/
theorem delegation_forwards_to_current
    (c : LayerC L Md Ctx Attrs SpanId Rc Ev Disp Intr Lvl E)
    (fc : FilterC L Md Ctx Attrs SpanId Rc Lvl Intr E)
    (s : CoreState L) (md : Md) (ctx : Ctx) (a : Attrs) (i j : SpanId)
    (r : Rc) (ev : Ev) (d : Disp) :
    adapter_on_register_dispatch c s d = c.on_register_dispatch s.current d ∧
    adapter_register_callsite c s md = c.register_callsite s.current md ∧
    adapter_enabled c s md ctx = c.enabled s.current md ctx ∧
    adapter_on_new_span c s a i ctx = c.on_new_span s.current a i ctx ∧
    adapter_on_record c s i r ctx = c.on_record s.current i r ctx ∧
    adapter_on_follows_from c s i j ctx = c.on_follows_from s.current i j ctx ∧
    adapter_event_enabled c s ev ctx = c.event_enabled s.current ev ctx ∧
    adapter_on_event c s ev ctx = c.on_event s.current ev ctx ∧
    adapter_on_enter c s i ctx = c.on_enter s.current i ctx ∧
    adapter_on_exit c s i ctx = c.on_exit s.current i ctx ∧
    adapter_on_close c s i ctx = c.on_close s.current i ctx ∧
    adapter_on_id_change c s i j ctx = c.on_id_change s.current i j ctx ∧
    adapter_max_level_hint c s = c.max_level_hint s.current ∧
    fadapter_callsite_enabled fc s md = fc.callsite_enabled s.current md ∧
    fadapter_enabled fc s md ctx = fc.enabled s.current md ctx ∧
    fadapter_on_new_span fc s a i ctx = fc.on_new_span s.current a i ctx ∧
    fadapter_on_record fc s i r ctx = fc.on_record s.current i r ctx ∧
    fadapter_on_enter fc s i ctx = fc.on_enter s.current i ctx ∧
    fadapter_on_exit fc s i ctx = fc.on_exit s.current i ctx ∧
    fadapter_on_close fc s i ctx = fc.on_close s.current i ctx ∧
    fadapter_max_level_hint fc s = fc.max_level_hint s.current :=
  ⟨rfl, rfl, rfl, rfl, rfl, rfl, rfl, rfl, rfl, rfl, rfl,
   rfl, rfl, rfl, rfl, rfl, rfl, rfl, rfl, rfl, rfl⟩

/-- Claim C10: immediately after `ArcSwapLayer::new(v)` and before any
write, the current value is `v` itself: `with_current(f)` returns
`Ok(f(v))`, `clone_current` returns a copy of `v`, and the delegation
methods forward to `v`. -/
theorem initial_value_is_argument {T : Type} (tl : Bool) (v : L)
    (clone : L → L) (g : L → T)
    (c : LayerC L Md Ctx Attrs SpanId Rc Ev Disp Intr Lvl E)
    (fc : FilterC L Md Ctx Attrs SpanId Rc Lvl Intr E)
    (md : Md) (ctx : Ctx) (ev : Ev) :
    (mkState tl v).current = v ∧
    withCurrent g (mkState tl v) = Except.ok (g v) ∧
    cloneCurrent clone (mkState tl v) = some (clone v) ∧
    adapter_enabled c (mkState tl v) md ctx = c.enabled v md ctx ∧
    adapter_event_enabled c (mkState tl v) ev ctx = c.event_enabled v ev ctx ∧
    adapter_register_callsite c (mkState tl v) md = c.register_callsite v md ∧
    adapter_max_level_hint c (mkState tl v) = c.max_level_hint v ∧
    fadapter_enabled fc (mkState tl v) md ctx = fc.enabled v md ctx ∧
    fadapter_callsite_enabled fc (mkState tl v) md = fc.callsite_enabled v md ∧
    fadapter_max_level_hint fc (mkState tl v) = fc.max_level_hint v :=
  ⟨rfl, rfl, rfl, rfl, rfl, rfl, rfl, rfl, rfl, rfl⟩

end Delegation

/-! ## Two concurrent `reload` calls (claim C9)

An interleaving model of two threads, each performing one `reload` whose
critical section is guarded by the `modify_lock` mutex.  Thread `i`'s call
is split into the two scheduler-visible transitions of the source:
`acquire` (`modify_lock.lock()` succeeds only when no other thread holds the
guard) and `publish` (`inner.store(...)` followed by the guard's release at
the end of the critical section). -/

/-- Progress of one of the two reloading threads. -/
inductive WPhase : Type where
  | idle : WPhase
  | crit : WPhase
  | finished : WPhase
deriving DecidableEq

/-- Shared state seen by the two reloading threads: who holds the
`modify_lock` guard, each thread's progress, and the cell's value. -/
structure WState (L : Type) where
  lockHeld : Option (Fin 2)
  phase : Fin 2 → WPhase
  current : L

/-- Pointwise update of a phase assignment. -/
def setPhase (ph : Fin 2 → WPhase) (i : Fin 2) (p : WPhase) : Fin 2 → WPhase :=
  fun j => if j = i then p else ph j

/-- Both threads idle, nothing holds the lock, the cell holds `x`. -/
def initW {L : Type} (x : L) : WState L :=
  { lockHeld := none, phase := fun _ => WPhase.idle, current := x }

/-- One scheduler transition.  `v i` is the value thread `i`'s `reload` was
called with. -/
inductive ReloadStep {L : Type} (v : Fin 2 → L) : WState L → WState L → Prop where
  | acquire (i : Fin 2) (s : WState L)
      (hp : s.phase i = WPhase.idle) (hl : s.lockHeld = none) :
      ReloadStep v s
        { s with lockHeld := some i, phase := setPhase s.phase i WPhase.crit }
  | publish (i : Fin 2) (s : WState L)
      (hp : s.phase i = WPhase.crit) (hl : s.lockHeld = some i) :
      ReloadStep v s
        { lockHeld := none, phase := setPhase s.phase i WPhase.finished,
          current := v i }

/-- Reachability under interleaved scheduling of the two reloads. -/
def WReaches {L : Type} (v : Fin 2 → L) : WState L → WState L → Prop :=
  Relation.ReflTransGen (ReloadStep v)

/-- Inductive invariant: a thread is inside its critical section only while
holding the lock, and the published value is the initial one until a thread
finishes, after which it is that thread's input. -/
def WInv {L : Type} (x : L) (v : Fin 2 → L) (s : WState L) : Prop :=
  (∀ i, s.phase i = WPhase.crit → s.lockHeld = some i) ∧
  ((s.current = x ∧ ∀ i, s.phase i ≠ WPhase.finished) ∨
   (∃ i, s.phase i = WPhase.finished ∧ s.current = v i))

theorem winv_init {L : Type} (x : L) (v : Fin 2 → L) : WInv x v (initW x) := by
  refine ⟨fun i h => ?_, Or.inl ⟨rfl, fun i h => ?_⟩⟩ <;> simp [initW] at h

theorem winv_step {L : Type} (x : L) (v : Fin 2 → L) {s t : WState L}
    (hinv : WInv x v s) (hstep : ReloadStep v s t) : WInv x v t := by
  obtain ⟨hlock, hval⟩ := hinv
  cases hstep with
  | acquire i s hp hl =>
      constructor
      · intro j hj
        simp only [setPhase] at hj
        by_cases hji : j = i
        · simp [hji]
        · simp [hji] at hj
          have := hlock j hj
          rw [hl] at this
          exact absurd this (by simp)
      · rcases hval with ⟨hc, hnf⟩ | ⟨j, hj, hc⟩
        · refine Or.inl ⟨hc, fun j => ?_⟩
          simp only [setPhase]
          by_cases hji : j = i
          · simp [hji]
          · simp [hji]; exact hnf j
        · refine Or.inr ⟨j, ?_, hc⟩
          simp only [setPhase]
          by_cases hji : j = i
          · rw [hji] at hj; rw [hj] at hp; cases hp
          · simp [hji]; exact hj
  | publish i s hp hl =>
      constructor
      · intro j hj
        simp only [setPhase] at hj
        by_cases hji : j = i
        · simp [hji] at hj
        · simp [hji] at hj
          have := hlock j hj
          rw [hl] at this
          exact absurd (Option.some.inj this) (Ne.symm hji)
      · refine Or.inr ⟨i, ?_, rfl⟩
        simp [setPhase]

theorem wreaches_winv {L : Type} (x : L) (v : Fin 2 → L) {s : WState L}
    (h : WReaches v (initW x) s) : WInv x v s := by
  induction h with
  | refl => exact winv_init x v
  | tail _ hstep ih => exact winv_step x v ih hstep

/-- Claim C9: under interleaved scheduling of two concurrent `reload` calls,
the two critical sections are mutually exclusive at every reachable state,
and once both calls have finished the published value is one of the two
supplied inputs — never a mixture. -/
theorem concurrent_reloads_serialize {L : Type} (x : L) (v : Fin 2 → L)
    (s : WState L) (h : WReaches v (initW x) s) :
    (¬ (s.phase 0 = WPhase.crit ∧ s.phase 1 = WPhase.crit)) ∧
    (s.phase 0 = WPhase.finished → s.phase 1 = WPhase.finished →
      s.current = v 0 ∨ s.current = v 1) := by
  obtain ⟨hlock, hval⟩ := wreaches_winv x v h
  constructor
  · rintro ⟨h0, h1⟩
    have e0 := hlock 0 h0
    have e1 := hlock 1 h1
    rw [e0] at e1
    exact absurd (Option.some.inj e1) (by decide)
  · intro h0 h1
    rcases hval with ⟨_, hnf⟩ | ⟨j, _, hc⟩
    · exact absurd h0 (hnf 0)
    · fin_cases j
      · exact Or.inl hc
      · exact Or.inr hc

/-- Thread 0's reload inputs 10, thread 1's inputs 20. -/
def wv : Fin 2 → Nat := fun i => if i = 0 then 10 else 20

/-- State after thread 0 acquires the lock. -/
def w1 : WState Nat :=
  { initW 0 with lockHeld := some 0, phase := setPhase (initW 0).phase 0 WPhase.crit }

/-- State after thread 0 publishes and releases. -/
def w2 : WState Nat :=
  { lockHeld := none, phase := setPhase w1.phase 0 WPhase.finished, current := wv 0 }

/-- State after thread 1 acquires the lock. -/
def w3 : WState Nat :=
  { w2 with lockHeld := some 1, phase := setPhase w2.phase 1 WPhase.crit }

/-- Final state after thread 1 publishes and releases. -/
def wFinal : WState Nat :=
  { lockHeld := none, phase := setPhase w3.phase 1 WPhase.finished, current := wv 1 }

/-- Concrete check of `concurrent_reloads_serialize`: a full interleaved
execution of two reloads (10 then 20) ends with mutual exclusion having
held and the published value being one of the two inputs. -/
theorem concurrent_reloads_serialize_check :
    (¬ (wFinal.phase 0 = WPhase.crit ∧ wFinal.phase 1 = WPhase.crit)) ∧
    (wFinal.phase 0 = WPhase.finished → wFinal.phase 1 = WPhase.finished →
      wFinal.current = wv 0 ∨ wFinal.current = wv 1) :=
  concurrent_reloads_serialize 0 wv wFinal
    (Relation.ReflTransGen.tail
      (Relation.ReflTransGen.tail
        (Relation.ReflTransGen.tail
          (Relation.ReflTransGen.single
            (ReloadStep.acquire 0 (initW 0) rfl rfl))
          (ReloadStep.publish 0 w1 (by decide) rfl))
        (ReloadStep.acquire 1 w2 (by decide) rfl))
      (ReloadStep.publish 1 w3 (by decide) rfl))

end TracingArcSwap
